import Mathlib

set_option maxHeartbeats 1000000

/-!
Verification development for the DropInDataEngin backend
(an Express server translating natural-language questions to SQL via an
LLM call and executing the SQL on a MySQL pool).

The embedding models:
* the markdown-fence cleanup performed on the LLM completion
  (`text.replace(/```sql/gi, "").replace(/```/g, "").trim()`),
* `generateSQL`, as a function of the outcome of the HTTP call to the
  completion provider,
* the `POST /query` handler, as a pure function of the request's
  `nlQuery` value, the LLM outcome and a database oracle, recording
  which outbound calls are made.
-/

namespace DropInDataEngine

/-- The backtick character (U+0060). -/
def bt : Char := Char.ofNat 96

/-- Whitespace as removed by JavaScript `String.prototype.trim`
(ASCII whitespace plus NBSP; exotic Unicode space separators omitted,
they never arise in the claims). -/
def isWs (c : Char) : Bool :=
  c == ' ' || c == '\t' || c == '\n' || c == '\r' || c == '\x0b' ||
    c == '\x0c' || c == ' '

/-- Every character of the list is whitespace. -/
def allWs (l : List Char) : Bool := l.all isWs

/-- Drop leading whitespace. -/
def dropWs (l : List Char) : List Char := l.dropWhile isWs

/-- Drop trailing whitespace. -/
def revDrop (l : List Char) : List Char := (dropWs l.reverse).reverse

/-- JavaScript `trim` on a list of characters. -/
def jsTrim (l : List Char) : List Char := revDrop (dropWs l)

/-- Case-insensitive match of the three letters of "sql"
(the `/i` flag of the regex `/```sql/gi`). -/
def sqlTail (d e f : Char) : Bool :=
  d.toLower == 's' && e.toLower == 'q' && f.toLower == 'l'

/-- The list starts with three backticks (a match of `/```/g`). -/
def fenceHit : List Char → Bool
  | a :: b :: c :: _ => a == bt && b == bt && c == bt
  | _ => false

/-- The list starts with a case-insensitive match of "```sql"
(a match of `/```sql/gi`). -/
def sqlHit : List Char → Bool
  | a :: b :: c :: d :: e :: f :: _ =>
      a == bt && b == bt && c == bt && sqlTail d e f
  | _ => false

/-- Some position of the list starts a match of `/```/g`. -/
def hasFence : List Char → Bool
  | [] => false
  | c :: t => fenceHit (c :: t) || hasFence t

/-- Some position of the list starts a match of `/```sql/gi`. -/
def hasSqlFence : List Char → Bool
  | [] => false
  | c :: t => sqlHit (c :: t) || hasSqlFence t

/-- `text.replace(/```sql/gi, "")`: left-to-right, non-overlapping removal
of every case-insensitive occurrence of "```sql". -/
def rmSqlFence : List Char → List Char
  | a :: b :: c :: d :: e :: f :: rest =>
      if sqlHit (a :: b :: c :: d :: e :: f :: rest) then rmSqlFence rest
      else a :: rmSqlFence (b :: c :: d :: e :: f :: rest)
  | l => l

/-- `text.replace(/```/g, "")`: left-to-right, non-overlapping removal of
every occurrence of "```". -/
def rmFence : List Char → List Char
  | a :: b :: c :: rest =>
      if fenceHit (a :: b :: c :: rest) then rmFence rest
      else a :: rmFence (b :: c :: rest)
  | l => l

/-- The cleanup applied to the completion text in `generateSQL`:
`text.replace(/```sql/gi, "").replace(/```/g, "").trim()`. -/
def cleanSQL (text : String) : String :=
  (jsTrim (rmFence (rmSqlFence text.data))).asString

/-- JavaScript `trim` on strings. -/
def trimJS (s : String) : String := (jsTrim s.data).asString

/-- Outcome of the axios POST to the completion endpoint: either the call
throws (network/HTTP error), or it yields a response whose first
candidate text is `text?` (`none` when the optional chain
`res.data?.candidates?.[0]?.content?.parts?.[0]?.text` is absent). -/
inductive LLMOutcome where
  | failure
  | success (text? : Option String)
deriving DecidableEq

/-- `generateSQL` from src/unnamed/part_000, as a function of the LLM
call's outcome: extracts the first candidate text (`?.trim() || ""`),
returns `none` (JS `null`) when the call failed or the text is absent or
trims to empty, and otherwise the cleaned SQL. -/
def generateSQL : LLMOutcome → Option String
  | .failure => none
  | .success t? =>
      let text := match t? with
        | some t => trimJS t
        | none => ""
      if text = "" then none else some (cleanSQL text)

/-- A JavaScript value, as far as the handler's `if (!nlQuery)` test and
JSON bodies need (numbers as integers; `NaN` plays no role here). -/
inductive JSVal where
  | undef
  | jsNull
  | jsBool (b : Bool)
  | jsNum (n : Int)
  | jsStr (s : String)
deriving DecidableEq

/-- JavaScript truthiness of a value. -/
def truthy : JSVal → Bool
  | .undef => false
  | .jsNull => false
  | .jsBool b => b
  | .jsNum n => !(n == 0)
  | .jsStr s => !(s == "")

/-- The JSON body of a `POST /query` response, over an arbitrary row
type `ρ` (row shape is determined only at execution time). -/
inductive RespBody (ρ : Type) where
  | errBody (error : String)
  | okBody (sql : String) (result : List ρ)
  | execErrBody (error : String) (details : String) (sql : String)
deriving DecidableEq

/-- The `sql` field of a response body, when present. -/
def RespBody.sqlField {ρ : Type} : RespBody ρ → Option String
  | .errBody _ => none
  | .okBody s _ => some s
  | .execErrBody _ _ s => some s

/-- Observable outcome of one `POST /query` request: HTTP status, JSON
body, whether `generateSQL` (the LLM call) was invoked, and the SQL
passed to `db.query` when the database was invoked. -/
structure HandlerOut (ρ : Type) where
  status : Nat
  body : RespBody ρ
  llmCalled : Bool
  dbCalled : Option String
deriving DecidableEq

/-- The `app.post("/query", ...)` handler from src/unnamed/part_000.
`nl` is the request body's `nlQuery` value, `llm` the outcome of the
provider call this request would make, and `dbq` the database oracle
(what `db.query` returns for a given SQL string: a row list, or a thrown
driver error message). -/
def handleQuery {ρ : Type} (nl : JSVal) (llm : LLMOutcome)
    (dbq : String → Except String (List ρ)) : HandlerOut ρ :=
  if truthy nl = false then
    ⟨400, .errBody "Missing natural query", false, none⟩
  else
    match generateSQL llm with
    | none => ⟨500, .errBody "AI failed to generate SQL", true, none⟩
    | some sqlQuery =>
      if sqlQuery = "" then
        ⟨500, .errBody "AI failed to generate SQL", true, none⟩
      else
        match dbq sqlQuery with
        | .ok rows => ⟨200, .okBody sqlQuery rows, true, some sqlQuery⟩
        | .error msg =>
            ⟨500, .execErrBody "SQL Execution Failed" msg sqlQuery, true,
              some sqlQuery⟩

/-- Two requests handled by the server: each invocation sees only its own
`nlQuery` and its own LLM outcome; the connection pool (the only shared
resource) is reflected in the common oracle `dbq`. -/
def processTwo {ρ : Type} (nl1 nl2 : JSVal) (llm : JSVal → LLMOutcome)
    (dbq : String → Except String (List ρ)) : HandlerOut ρ × HandlerOut ρ :=
  (handleQuery nl1 (llm nl1) dbq, handleQuery nl2 (llm nl2) dbq)

/-! ### Basic facts about the fence scanners -/

theorem bt_not_ws : isWs bt = false := by decide

theorem sqlTail_bt_fst (e f : Char) : sqlTail bt e f = false := by
  have h : (bt.toLower == 's') = false := by decide
  simp [sqlTail, h]

theorem sqlTail_bt_snd (d f : Char) : sqlTail d bt f = false := by
  have h : (bt.toLower == 'q') = false := by decide
  simp [sqlTail, h]

theorem sqlTail_bt_thd (d e : Char) : sqlTail d e bt = false := by
  have h : (bt.toLower == 'l') = false := by decide
  simp [sqlTail, h]

theorem sqlHit_imp_fenceHit (l : List Char) (h : sqlHit l = true) :
    fenceHit l = true := by
  rcases l with _ | ⟨a, _ | ⟨b, _ | ⟨c, _ | ⟨d, _ | ⟨e, _ | ⟨f, rest⟩⟩⟩⟩⟩⟩ <;>
    simp_all [sqlHit, fenceHit]

/-- A string without an occurrence of `/```sql/gi` is left unchanged by the
first `replace`. -/
theorem rmSqlFence_of_no_hit (l : List Char) (h : hasSqlFence l = false) :
    rmSqlFence l = l := by
  induction l with
  | nil => rfl
  | cons a t ih =>
    rw [hasSqlFence, Bool.or_eq_false_iff] at h
    obtain ⟨h1, h2⟩ := h
    rcases t with _ | ⟨b, _ | ⟨c, _ | ⟨d, _ | ⟨e, _ | ⟨f, rest⟩⟩⟩⟩⟩
    · rfl
    · rfl
    · rfl
    · rfl
    · rfl
    · rw [rmSqlFence, if_neg (by simp [h1]), ih h2]

/-- A string without an occurrence of `/```/g` is left unchanged by the
second `replace`. -/
theorem rmFence_of_no_fence (l : List Char) (h : hasFence l = false) :
    rmFence l = l := by
  induction l with
  | nil => rfl
  | cons a t ih =>
    rw [hasFence, Bool.or_eq_false_iff] at h
    obtain ⟨h1, h2⟩ := h
    rcases t with _ | ⟨b, _ | ⟨c, rest⟩⟩
    · rfl
    · rfl
    · rw [rmFence, if_neg (by simp [h1]), ih h2]

/-- No `/```sql/gi` occurrence without a `/```/g` occurrence. -/
theorem hasSqlFence_of_no_fence (l : List Char) (h : hasFence l = false) :
    hasSqlFence l = false := by
  induction l with
  | nil => rfl
  | cons a t ih =>
    rw [hasFence, Bool.or_eq_false_iff] at h
    obtain ⟨h1, h2⟩ := h
    rw [hasSqlFence, Bool.or_eq_false_iff]
    refine ⟨?_, ih h2⟩
    cases hs : sqlHit (a :: t)
    · rfl
    · rw [sqlHit_imp_fenceHit _ hs] at h1
      exact absurd h1 (by simp)

/-- Number of leading backticks. -/
def leadBt : List Char → Nat
  | [] => 0
  | c :: t => if c == bt then leadBt t + 1 else 0

theorem leadBt_bt_cons (u : List Char) : leadBt (bt :: u) = leadBt u + 1 := by
  simp [leadBt]

theorem leadBt_ne_cons {x : Char} (u : List Char) (h : (x == bt) = false) :
    leadBt (x :: u) = 0 := by
  simp [leadBt, h]

theorem leadBt_cons_le (x : Char) (u : List Char) :
    leadBt (x :: u) ≤ leadBt u + 1 := by
  simp only [leadBt]; split <;> omega

theorem fenceHit_iff_leadBt (l : List Char) :
    fenceHit l = true ↔ 3 ≤ leadBt l := by
  rcases l with _ | ⟨a, _ | ⟨b, _ | ⟨c, rest⟩⟩⟩
  · simp [fenceHit, leadBt]
  · simp only [fenceHit]
    constructor
    · intro h; exact absurd h (by simp)
    · intro h
      exfalso
      cases hab : a == bt
      · rw [leadBt_ne_cons _ hab] at h; omega
      · have ha : a = bt := by simpa using hab
        subst ha
        rw [leadBt_bt_cons] at h
        simp only [leadBt] at h
        omega
  · simp only [fenceHit]
    constructor
    · intro h; exact absurd h (by simp)
    · intro h
      exfalso
      cases hab : a == bt
      · rw [leadBt_ne_cons _ hab] at h; omega
      · have ha : a = bt := by simpa using hab
        subst ha
        rw [leadBt_bt_cons] at h
        cases hbb : b == bt
        · rw [leadBt_ne_cons _ hbb] at h; omega
        · have hb : b = bt := by simpa using hbb
          subst hb
          rw [leadBt_bt_cons] at h
          simp only [leadBt] at h
          omega
  · constructor
    · intro h
      obtain ⟨ha, hb, hc⟩ : a = bt ∧ b = bt ∧ c = bt := by
        simpa [fenceHit, and_assoc] using h
      subst ha; subst hb; subst hc
      rw [leadBt_bt_cons, leadBt_bt_cons, leadBt_bt_cons]
      omega
    · intro h
      cases hx : a == bt with
      | false => rw [leadBt_ne_cons _ hx] at h; omega
      | true =>
        have ha : a = bt := by simpa using hx
        subst ha
        rw [leadBt_bt_cons] at h
        cases hy : b == bt with
        | false => rw [leadBt_ne_cons _ hy] at h; omega
        | true =>
          have hb : b = bt := by simpa using hy
          subst hb
          rw [leadBt_bt_cons] at h
          cases hz : c == bt with
          | false => rw [leadBt_ne_cons _ hz] at h; omega
          | true =>
            have hc : c = bt := by simpa using hz
            subst hc
            simp [fenceHit]

/-- After the global removal of `/```/g`, the result contains no further
occurrence of "```", and its leading-backtick run has not grown. -/
theorem rmFence_no_fence (l : List Char) :
    hasFence (rmFence l) = false ∧ leadBt (rmFence l) ≤ leadBt l := by
  induction l using rmFence.induct with
  | case1 a b c rest hit ih =>
    rw [rmFence, if_pos hit]
    obtain ⟨ha, hb, hc⟩ : a = bt ∧ b = bt ∧ c = bt := by
      simpa [fenceHit, and_assoc] using hit
    subst ha; subst hb; subst hc
    refine ⟨ih.1, ?_⟩
    rw [leadBt_bt_cons, leadBt_bt_cons, leadBt_bt_cons]
    have := ih.2
    omega
  | case2 a b c rest hit ih =>
    obtain ⟨ih1, ih2⟩ := ih
    rw [rmFence, if_neg hit]
    constructor
    · rw [hasFence, Bool.or_eq_false_iff]
      refine ⟨?_, ih1⟩
      cases hf : fenceHit (a :: rmFence (b :: c :: rest)) with
      | false => rfl
      | true =>
        exfalso
        rw [fenceHit_iff_leadBt] at hf
        have ha : a = bt := by
          cases hab : a == bt
          · rw [leadBt_ne_cons _ hab] at hf; omega
          · simpa using hab
        subst ha
        rw [leadBt_bt_cons] at hf
        apply hit
        rw [fenceHit_iff_leadBt, leadBt_bt_cons]
        omega
    · have hle := leadBt_cons_le a (rmFence (b :: c :: rest))
      cases hab : a == bt
      · rw [leadBt_ne_cons _ hab]
        omega
      · have ha : a = bt := by simpa using hab
        subst ha
        rw [leadBt_bt_cons, leadBt_bt_cons]
        omega
  | case3 l h =>
    rcases l with _ | ⟨a, _ | ⟨b, _ | ⟨c, t⟩⟩⟩
    · exact ⟨rfl, Nat.le_refl _⟩
    · exact ⟨by simp [rmFence, hasFence, fenceHit], by simp [rmFence]⟩
    · exact ⟨by simp [rmFence, hasFence, fenceHit], by simp [rmFence]⟩
    · exact absurd rfl (h a b c t)

/-! ### Lemmas about JavaScript `trim` -/

theorem dropWs_length_le (l : List Char) : (dropWs l).length ≤ l.length := by
  induction l with
  | nil => exact Nat.le_refl _
  | cons c t ih =>
    rw [dropWs, List.dropWhile_cons]
    split
    · exact Nat.le_trans ih (by simp)
    · exact Nat.le_refl _

theorem dropWs_ws_append {w : List Char} (x : List Char)
    (hw : allWs w = true) : dropWs (w ++ x) = dropWs x := by
  induction w with
  | nil => rfl
  | cons c t ih =>
    rw [allWs, List.all_cons, Bool.and_eq_true] at hw
    rw [List.cons_append, dropWs, List.dropWhile_cons, if_pos (by simp [hw.1])]
    exact ih hw.2

theorem dropWs_of_allWs {w : List Char} (hw : allWs w = true) :
    dropWs w = [] := by
  have := dropWs_ws_append ([] : List Char) hw
  simpa using this

theorem dropWs_cons_neg {c : Char} (t : List Char) (hc : isWs c = false) :
    dropWs (c :: t) = c :: t := by
  rw [dropWs, List.dropWhile_cons, if_neg (by simp [hc])]

theorem dropWs_cons_pos {c : Char} (t : List Char) (hc : isWs c = true) :
    dropWs (c :: t) = dropWs t := by
  rw [dropWs, List.dropWhile_cons, if_pos (by simp [hc])]
  rfl

theorem revDrop_append_ws {w : List Char} (z : List Char)
    (hw : allWs w = true) : revDrop (z ++ w) = revDrop z := by
  rw [revDrop, List.reverse_append, dropWs_ws_append _ (by
    rw [allWs, List.all_reverse]; exact hw)]
  rfl

theorem jsTrim_ws_left {w : List Char} (x : List Char)
    (hw : allWs w = true) : jsTrim (w ++ x) = jsTrim x := by
  rw [jsTrim, dropWs_ws_append _ hw]; rfl

theorem jsTrim_ws_right {w : List Char} (x : List Char)
    (hw : allWs w = true) : jsTrim (x ++ w) = jsTrim x := by
  induction x with
  | nil =>
    simp only [List.nil_append, jsTrim, dropWs_of_allWs hw]
    rfl
  | cons c t ih =>
    cases hc : isWs c
    · rw [jsTrim, List.cons_append, dropWs_cons_neg _ hc,
        ← List.cons_append, revDrop_append_ws _ hw, jsTrim,
        dropWs_cons_neg _ hc]
    · rw [jsTrim, List.cons_append, dropWs_cons_pos _ hc]
      rw [jsTrim, dropWs_cons_pos _ hc]
      exact ih

theorem dropWs_dropWs (l : List Char) : dropWs (dropWs l) = dropWs l := by
  induction l with
  | nil => rfl
  | cons c t ih =>
    cases hc : isWs c
    · rw [dropWs_cons_neg _ hc, dropWs_cons_neg _ hc]
    · rw [dropWs_cons_pos _ hc]
      exact ih

theorem revDrop_revDrop (l : List Char) : revDrop (revDrop l) = revDrop l := by
  rw [revDrop, revDrop, List.reverse_reverse, dropWs_dropWs]

/-- A list already free of leading whitespace stays so after the trailing
trim. -/
theorem dropWs_revDrop {u : List Char} (hu : dropWs u = u) :
    dropWs (revDrop u) = revDrop u := by
  rw [revDrop]
  rcases hrs : (dropWs u.reverse).reverse with _ | ⟨c, r⟩
  · rfl
  · have hc : isWs c = false := by
      by_contra hcc
      rw [Bool.not_eq_false] at hcc
      have hu' : u = (c :: r) ++ (List.takeWhile isWs u.reverse).reverse := by
        have h0 := congrArg List.reverse
          (List.takeWhile_append_dropWhile isWs u.reverse)
        rw [List.reverse_append, List.reverse_reverse] at h0
        conv_lhs => rw [← h0]
        congr 1
      rw [hu', List.cons_append, dropWs_cons_pos _ hcc] at hu
      have hlen2 :=
        dropWs_length_le (r ++ (List.takeWhile isWs u.reverse).reverse)
      rw [hu] at hlen2
      simp only [List.length_cons] at hlen2
      omega
    exact dropWs_cons_neg _ hc

theorem jsTrim_idem (l : List Char) : jsTrim (jsTrim l) = jsTrim l := by
  rw [jsTrim, jsTrim, dropWs_revDrop (dropWs_dropWs l), revDrop_revDrop]

/-- A list whose first and last characters are not whitespace is unchanged
by `trim`. -/
theorem jsTrim_of_ends {a z : Char} (x : List Char) (ha : isWs a = false)
    (hz : isWs z = false) : jsTrim (a :: (x ++ [z])) = a :: (x ++ [z]) := by
  rw [jsTrim, dropWs_cons_neg _ ha, revDrop]
  rw [List.reverse_cons, List.reverse_append]
  simp only [List.reverse_cons, List.reverse_nil, List.nil_append,
    List.cons_append]
  rw [dropWs_cons_neg _ hz]
  simp

/-! ### `hasFence` and sublists -/

theorem hasFence_append_right {p s : List Char}
    (h : hasFence (p ++ s) = false) : hasFence s = false := by
  induction p with
  | nil => exact h
  | cons c t ih =>
    rw [List.cons_append, hasFence, Bool.or_eq_false_iff] at h
    exact ih h.2

theorem hasFence_append_left {p s : List Char}
    (h : hasFence (p ++ s) = false) : hasFence p = false := by
  induction p with
  | nil => rfl
  | cons c t ih =>
    rw [List.cons_append, hasFence, Bool.or_eq_false_iff] at h
    obtain ⟨h1, h2⟩ := h
    rw [hasFence, Bool.or_eq_false_iff]
    refine ⟨?_, ih h2⟩
    rcases t with _ | ⟨b, _ | ⟨b2, t'⟩⟩
    · rfl
    · rfl
    · rw [List.cons_append, List.cons_append] at h1
      rw [fenceHit] at h1 ⊢
      exact h1

theorem hasFence_dropWs {l : List Char} (h : hasFence l = false) :
    hasFence (dropWs l) = false := by
  have h0 := List.takeWhile_append_dropWhile isWs l
  rw [← h0] at h
  exact hasFence_append_right h

theorem hasFence_revDrop {l : List Char} (h : hasFence l = false) :
    hasFence (revDrop l) = false := by
  have h0 := congrArg List.reverse
    (List.takeWhile_append_dropWhile isWs l.reverse)
  rw [List.reverse_append, List.reverse_reverse] at h0
  rw [← h0] at h
  exact hasFence_append_left h

theorem hasFence_jsTrim {l : List Char} (h : hasFence l = false) :
    hasFence (jsTrim l) = false :=
  hasFence_revDrop (hasFence_dropWs h)

/-! ### The fenced round trip -/

/-- The closing fence "```". -/
def fence3 : List Char := [bt, bt, bt]

/-- The opening fence "```sql". -/
def fence6 : List Char := [bt, bt, bt, 's', 'q', 'l']

/-- Appending the closing fence to a body with no "```" creates no
occurrence of `/```sql/gi`. -/
theorem hasSqlFence_append_fence3 {mid : List Char}
    (h : hasFence mid = false) : hasSqlFence (mid ++ fence3) = false := by
  induction mid with
  | nil => decide
  | cons c t ih =>
    rw [hasFence, Bool.or_eq_false_iff] at h
    obtain ⟨h1, h2⟩ := h
    rw [List.cons_append, hasSqlFence, Bool.or_eq_false_iff]
    refine ⟨?_, ih h2⟩
    rcases t with _ | ⟨b1, _ | ⟨b2, _ | ⟨b3, _ | ⟨b4, _ | ⟨b5, t'⟩⟩⟩⟩⟩
    · rfl
    · rfl
    · simp [fence3, sqlHit, sqlTail_bt_fst]
    · simp [fence3, sqlHit, sqlTail_bt_snd]
    · simp [fence3, sqlHit, sqlTail_bt_thd]
    · rw [fenceHit] at h1
      cases ha : c == bt <;> cases hb : b1 == bt <;> cases hc2 : b2 == bt <;>
        simp_all [sqlHit]

/-- Removing `/```/g` from a fence-free body followed by the closing fence
yields exactly the body. -/
theorem rmFence_append_fence3 {mid : List Char}
    (h : hasFence mid = false) : rmFence (mid ++ fence3) = mid := by
  induction mid with
  | nil => decide
  | cons c t ih =>
    rw [hasFence, Bool.or_eq_false_iff] at h
    obtain ⟨h1, h2⟩ := h
    rcases t with _ | ⟨b1, _ | ⟨b2, t'⟩⟩
    · cases hcb : c == bt
      · simp [fence3, rmFence, fenceHit, hcb]
      · have hc : c = bt := by simpa using hcb
        subst hc
        decide
    · cases hcb : c == bt
      · cases hb1 : b1 == bt
        · simp [fence3, rmFence, fenceHit, hcb, hb1]
        · have hb : b1 = bt := by simpa using hb1
          subst hb
          simp [fence3, rmFence, fenceHit, hcb]
      · have hc : c = bt := by simpa using hcb
        subst hc
        cases hb1 : b1 == bt
        · simp [fence3, rmFence, fenceHit, hb1]
        · have hb : b1 = bt := by simpa using hb1
          subst hb
          decide
    · simp only [List.cons_append]
      rw [rmFence, if_neg (by
        rw [fenceHit] at h1 ⊢
        simp [h1])]
      have h3 := ih h2
      simp only [List.cons_append] at h3
      rw [h3]

/-- The trimmed completion text of a fenced completion is exactly the
opening fence, the body and the closing fence. -/
theorem jsTrim_fenced (w1 w2 mid : List Char) (hw1 : allWs w1 = true)
    (hw2 : allWs w2 = true) :
    jsTrim (w1 ++ fence6 ++ mid ++ fence3 ++ w2) =
      fence6 ++ (mid ++ fence3) := by
  have hshape : w1 ++ fence6 ++ mid ++ fence3 ++ w2 =
      w1 ++ ((fence6 ++ (mid ++ fence3)) ++ w2) := by
    simp [List.append_assoc]
  rw [hshape, jsTrim_ws_left _ hw1, jsTrim_ws_right _ hw2]
  have hshape2 : fence6 ++ (mid ++ fence3) =
      bt :: (([bt, bt, 's', 'q', 'l'] ++ mid ++ [bt, bt]) ++ [bt]) := by
    simp [fence6, fence3]
  rw [hshape2, jsTrim_of_ends _ bt_not_ws bt_not_ws]

/-- Cleaning the fenced completion yields the trimmed body. -/
theorem cleanSQL_fenced (mid : List Char) (hmid : hasFence mid = false) :
    cleanSQL (List.asString (fence6 ++ (mid ++ fence3))) =
      List.asString (jsTrim mid) := by
  rw [cleanSQL]
  congr 1
  show jsTrim (rmFence (rmSqlFence (fence6 ++ (mid ++ fence3)))) = jsTrim mid
  have hsql : rmSqlFence (fence6 ++ (mid ++ fence3)) = mid ++ fence3 := by
    have hshape6 : fence6 ++ (mid ++ fence3) =
        bt :: bt :: bt :: 's' :: 'q' :: 'l' :: (mid ++ fence3) := by
      simp [fence6]
    rw [hshape6, rmSqlFence, if_pos (by rw [sqlHit]; decide)]
    exact rmSqlFence_of_no_hit _ (hasSqlFence_append_fence3 hmid)
  rw [hsql, rmFence_append_fence3 hmid]

/-- C1: a generator completion consisting of a SQL body wrapped in a
"```sql" opening fence and a "```" closing fence, possibly surrounded by
whitespace, is cleaned by `generateSQL` to exactly the inner body with
surrounding whitespace trimmed (provided the body itself contains no
triple backtick — MySQL identifier quoting uses single backticks, which
are untouched). -/
theorem C1_generateSQL_fenced_round_trip (w1 w2 mid : List Char)
    (hw1 : allWs w1 = true) (hw2 : allWs w2 = true)
    (hmid : hasFence mid = false) :
    generateSQL (.success (some (List.asString
        (w1 ++ fence6 ++ mid ++ fence3 ++ w2)))) =
      some (List.asString (jsTrim mid)) := by
  have htext : trimJS (List.asString (w1 ++ fence6 ++ mid ++ fence3 ++ w2)) =
      List.asString (fence6 ++ (mid ++ fence3)) := by
    rw [trimJS]
    exact congrArg List.asString (jsTrim_fenced w1 w2 mid hw1 hw2)
  have hne : List.asString (fence6 ++ (mid ++ fence3)) ≠ "" := by
    intro hcontra
    have h2 : fence6 ++ (mid ++ fence3) = ([] : List Char) :=
      congrArg String.data hcontra
    simp [fence6] at h2
  simp only [generateSQL, htext, if_neg hne]
  exact congrArg some (cleanSQL_fenced mid hmid)

/-- C1 witness: a concrete fenced completion (leading space, trailing
newline, body "SELECT 1; " with a trailing space) cleans to the trimmed
body "SELECT 1;". -/
theorem C1_witness :
    allWs [' '] = true ∧ allWs ['\n'] = true ∧
      hasFence ['S', 'E', 'L', 'E', 'C', 'T', ' ', '1', ';', ' '] = false ∧
      generateSQL (.success (some (List.asString
          ([' '] ++ fence6 ++ ['S', 'E', 'L', 'E', 'C', 'T', ' ', '1', ';', ' '] ++
            fence3 ++ ['\n'])))) =
        some (List.asString
          (jsTrim ['S', 'E', 'L', 'E', 'C', 'T', ' ', '1', ';', ' '])) :=
  ⟨by decide, by decide, by decide,
    C1_generateSQL_fenced_round_trip [' '] ['\n']
      ['S', 'E', 'L', 'E', 'C', 'T', ' ', '1', ';', ' ']
      (by decide) (by decide) (by decide)⟩

/-- C10: the fence cleanup is a global substitution — the cleaned text
contains no occurrence of "```sql" (case-insensitive) and no occurrence
of "```" at any position, cleaning is idempotent, and triple backticks in
the middle of the text (not only leading/closing fences) are deleted, as
the two concrete evaluations show. -/
theorem C10_cleanSQL_global_idempotent :
    (∀ s : String, hasSqlFence (cleanSQL s).data = false ∧
        hasFence (cleanSQL s).data = false ∧
        cleanSQL (cleanSQL s) = cleanSQL s) ∧
      cleanSQL "SELECT a ``` b ```sql c" = "SELECT a  b  c" ∧
      cleanSQL "```SQL\nSELECT 1;\n```" = "SELECT 1;" := by
  refine ⟨fun s => ?_, by decide, by decide⟩
  have hf : hasFence (cleanSQL s).data = false := by
    show hasFence (jsTrim (rmFence (rmSqlFence s.data))) = false
    exact hasFence_jsTrim (rmFence_no_fence _).1
  have hs : hasSqlFence (cleanSQL s).data = false :=
    hasSqlFence_of_no_fence _ hf
  refine ⟨hs, hf, ?_⟩
  show List.asString (jsTrim (rmFence (rmSqlFence (cleanSQL s).data))) =
    cleanSQL s
  rw [rmSqlFence_of_no_hit _ hs, rmFence_of_no_fence _ hf]
  show List.asString (jsTrim (jsTrim (rmFence (rmSqlFence s.data)))) =
    cleanSQL s
  rw [jsTrim_idem]
  rfl

/-- C6: when the first candidate's text trims to empty or is absent,
`generateSQL` returns `null` (not an empty or partial SQL string), and the
same `null` is returned when the HTTP call to the provider fails. -/
theorem C6_generateSQL_null_on_no_text (t : String) (ht : trimJS t = "") :
    generateSQL (.success (some t)) = none ∧
    generateSQL (.success none) = none ∧
    generateSQL .failure = none := by
  refine ⟨?_, rfl, rfl⟩
  simp [generateSQL, ht]

/-- C6 witness: the whitespace-only candidate text " \n " trims to empty
and yields a `null` generation result, as do an absent text and a failed
call. -/
theorem C6_witness :
    trimJS " \n " = "" ∧
      (generateSQL (.success (some " \n ")) = none ∧
        generateSQL (.success none) = none ∧
        generateSQL .failure = none) :=
  ⟨by decide, C6_generateSQL_null_on_no_text " \n " (by decide)⟩

/-- C2: for a request with a non-empty `nlQuery`, a `null` generation
result produces exactly the 500 response
`{"error":"AI failed to generate SQL"}` with no database call; and in any
request, the database is called only with the SQL of a completed,
successful generation (`llm2`, `s` name an arbitrary run whose handler
did call the database). -/
theorem C2_generation_failure_responds_500_no_db {ρ : Type} (q : String)
    (llm llm2 : LLMOutcome) (dbq : String → Except String (List ρ))
    (s : String) (hq : q ≠ "") (hgen : generateSQL llm = none)
    (hdb : (handleQuery (.jsStr q) llm2 dbq).dbCalled = some s) :
    handleQuery (.jsStr q) llm dbq =
      ⟨500, .errBody "AI failed to generate SQL", true, none⟩ ∧
    (handleQuery (.jsStr q) llm dbq).dbCalled = none ∧
    generateSQL llm2 = some s ∧
    (handleQuery (.jsStr q) llm2 dbq).llmCalled = true := by
  have htru : truthy (.jsStr q) = true := by simp [truthy, hq]
  have h1 : handleQuery (.jsStr q) llm dbq =
      ⟨500, .errBody "AI failed to generate SQL", true, none⟩ := by
    simp [handleQuery, htru, hgen]
  refine ⟨h1, by rw [h1], ?_, ?_⟩
  · rcases hgen2 : generateSQL llm2 with _ | g
    · simp [handleQuery, htru, hgen2] at hdb
    · by_cases hg : g = ""
      · subst hg
        simp [handleQuery, htru, hgen2] at hdb
      · rcases hd : dbq g with e | rows <;>
          · simp [handleQuery, htru, hgen2, hg, hd] at hdb
            subst hdb
            rfl
  · rcases hgen2 : generateSQL llm2 with _ | g
    · simp [handleQuery, htru, hgen2]
    · by_cases hg : g = ""
      · subst hg
        simp [handleQuery, htru, hgen2]
      · rcases hd : dbq g with e | rows <;>
          simp [handleQuery, htru, hgen2, hg, hd]

/-- C2 witness: with the provider call failing, the request "list jobs"
gets the 500 generation-failure response and no database call; a second
run whose generation succeeded shows the database receives exactly the
generated SQL. -/
theorem C2_witness :
    ("list jobs" : String) ≠ "" ∧
      generateSQL LLMOutcome.failure = none ∧
      (handleQuery (ρ := Nat) (.jsStr "list jobs")
          (.success (some "SELECT 1;")) (fun _ => .ok [])).dbCalled =
        some "SELECT 1;" ∧
      (handleQuery (ρ := Nat) (.jsStr "list jobs") .failure
            (fun _ => .ok []) =
          ⟨500, .errBody "AI failed to generate SQL", true, none⟩ ∧
        (handleQuery (ρ := Nat) (.jsStr "list jobs") .failure
            (fun _ => .ok [])).dbCalled = none ∧
        generateSQL (.success (some "SELECT 1;")) = some "SELECT 1;" ∧
        (handleQuery (ρ := Nat) (.jsStr "list jobs")
            (.success (some "SELECT 1;")) (fun _ => .ok [])).llmCalled =
          true) :=
  ⟨by decide, by decide, by decide,
    C2_generation_failure_responds_500_no_db "list jobs" .failure
      (.success (some "SELECT 1;")) (fun _ => .ok []) "SELECT 1;"
      (by decide) (by decide) (by decide)⟩

/-- C3: a request whose body has no `nlQuery` field (the destructured
value is `undefined`) is answered 400 with exactly
`{"error":"Missing natural query"}`, with neither the LLM nor the
database called. -/
theorem C3_missing_nlQuery_400 {ρ : Type} (llm : LLMOutcome)
    (dbq : String → Except String (List ρ)) :
    handleQuery .undef llm dbq =
      ⟨400, .errBody "Missing natural query", false, none⟩ := by
  simp [handleQuery, truthy]

/-- C4: when generation succeeds (non-empty SQL) and the database query
succeeds, the response is 200 with the generated SQL string verbatim and
the row set unmodified. -/
theorem C4_success_response {ρ : Type} (q s : String) (llm : LLMOutcome)
    (dbq : String → Except String (List ρ)) (rows : List ρ) (hq : q ≠ "")
    (hgen : generateSQL llm = some s) (hs : s ≠ "")
    (hdb : dbq s = .ok rows) :
    handleQuery (.jsStr q) llm dbq = ⟨200, .okBody s rows, true, some s⟩ := by
  have htru : truthy (.jsStr q) = true := by simp [truthy, hq]
  simp [handleQuery, htru, hgen, hs, hdb]

/-- C4 witness: a concrete successful run returns 200 with the exact SQL
and the unmodified rows. -/
theorem C4_witness :
    ("how many jobs" : String) ≠ "" ∧
      generateSQL (.success (some "```sql\nSELECT 1;\n```")) =
        some "SELECT 1;" ∧
      ("SELECT 1;" : String) ≠ "" ∧
      (fun _ : String => Except.ok (ε := String) ([3, 4] : List Nat))
          "SELECT 1;" = Except.ok [3, 4] ∧
      handleQuery (.jsStr "how many jobs")
          (.success (some "```sql\nSELECT 1;\n```"))
          (fun _ => .ok ([3, 4] : List Nat)) =
        ⟨200, .okBody "SELECT 1;" [3, 4], true, some "SELECT 1;"⟩ :=
  ⟨by decide, by decide, by decide, rfl,
    C4_success_response "how many jobs" "SELECT 1;"
      (.success (some "```sql\nSELECT 1;\n```"))
      (fun _ => .ok ([3, 4] : List Nat)) [3, 4]
      (by decide) (by decide) (by decide) rfl⟩

/-- C5: when generation succeeds but the database query throws, the
response is 500 with error "SQL Execution Failed", the raw driver
message, and the attempted SQL. -/
theorem C5_execution_failure_response {ρ : Type} (q s msg : String)
    (llm : LLMOutcome) (dbq : String → Except String (List ρ)) (hq : q ≠ "")
    (hgen : generateSQL llm = some s) (hs : s ≠ "")
    (hdb : dbq s = .error msg) :
    handleQuery (.jsStr q) llm dbq =
      ⟨500, .execErrBody "SQL Execution Failed" msg s, true, some s⟩ := by
  have htru : truthy (.jsStr q) = true := by simp [truthy, hq]
  simp [handleQuery, htru, hgen, hs, hdb]

/-- C5 witness: a concrete failing execution returns 500 with the driver
message and the attempted SQL. -/
theorem C5_witness :
    ("drop it" : String) ≠ "" ∧
      generateSQL (.success (some "DROP TABLE x;")) =
        some "DROP TABLE x;" ∧
      ("DROP TABLE x;" : String) ≠ "" ∧
      (fun _ : String =>
          Except.error (α := List Nat) "Table 'x' doesn't exist")
          "DROP TABLE x;" = Except.error "Table 'x' doesn't exist" ∧
      handleQuery (.jsStr "drop it") (.success (some "DROP TABLE x;"))
          (fun _ => Except.error (α := List Nat) "Table 'x' doesn't exist") =
        ⟨500, .execErrBody "SQL Execution Failed" "Table 'x' doesn't exist"
          "DROP TABLE x;", true, some "DROP TABLE x;"⟩ :=
  ⟨by decide, by decide, by decide, rfl,
    C5_execution_failure_response "drop it" "DROP TABLE x;"
      "Table 'x' doesn't exist" (.success (some "DROP TABLE x;"))
      (fun _ => Except.error (α := List Nat) "Table 'x' doesn't exist")
      (by decide) (by decide) (by decide) rfl⟩

/-- C7: invariant — whenever `db.query` is invoked, the SQL handed to it
is non-empty (and is the successfully generated SQL); and when the
candidate SQL is `null` or empty, a truthy request gets the
generation-failure response with no database call. -/
theorem C7_db_only_with_nonempty_sql {ρ : Type} (nl : JSVal)
    (llm llm0 : LLMOutcome) (dbq : String → Except String (List ρ))
    (s : String) (hdb : (handleQuery nl llm dbq).dbCalled = some s)
    (htr : truthy nl = true)
    (hgen0 : generateSQL llm0 = none ∨ generateSQL llm0 = some "") :
    s ≠ "" ∧ generateSQL llm = some s ∧
      handleQuery nl llm0 dbq =
        ⟨500, .errBody "AI failed to generate SQL", true, none⟩ := by
  refine ⟨?_, ?_, ?_⟩
  · rcases hgen : generateSQL llm with _ | g
    · simp [handleQuery, htr, hgen] at hdb
    · by_cases hg : g = ""
      · subst hg
        simp [handleQuery, htr, hgen] at hdb
      · rcases hd : dbq g with e | rows <;>
          · simp [handleQuery, htr, hgen, hg, hd] at hdb
            subst hdb
            exact hg
  · rcases hgen : generateSQL llm with _ | g
    · simp [handleQuery, htr, hgen] at hdb
    · by_cases hg : g = ""
      · subst hg
        simp [handleQuery, htr, hgen] at hdb
      · rcases hd : dbq g with e | rows <;>
          · simp [handleQuery, htr, hgen, hg, hd] at hdb
            subst hdb
            rfl
  · rcases hgen0 with h0 | h0 <;> simp [handleQuery, htr, h0]

/-- C7 witness: a run that called the database with "SELECT 1;" (non-empty,
the generated SQL) alongside a run whose candidate was `null`, which got
the generation-failure response. -/
theorem C7_witness :
    (handleQuery (ρ := Nat) (.jsStr "q") (.success (some "SELECT 1;"))
        (fun _ => .ok [])).dbCalled = some "SELECT 1;" ∧
      truthy (.jsStr "q") = true ∧
      generateSQL LLMOutcome.failure = none ∧
      (("SELECT 1;" : String) ≠ "" ∧
        generateSQL (.success (some "SELECT 1;")) = some "SELECT 1;" ∧
        handleQuery (ρ := Nat) (.jsStr "q") .failure (fun _ => .ok []) =
          ⟨500, .errBody "AI failed to generate SQL", true, none⟩) :=
  ⟨by decide, by decide, by decide,
    C7_db_only_with_nonempty_sql (.jsStr "q") (.success (some "SELECT 1;"))
      .failure (fun _ => .ok []) "SELECT 1;" (by decide) (by decide)
      (Or.inl (by decide))⟩

/-- C8: responses of two requests are each determined by that request's
own `nlQuery` and LLM outcome alone; in particular a response's `sql`
field is exactly its own request's generated text and does not depend on
the database oracle (the only channel shared between requests). -/
theorem C8_no_cross_contamination {ρ : Type} (nl1 nl2 : JSVal)
    (llm : JSVal → LLMOutcome) (dbq dbq' : String → Except String (List ρ))
    (s : String)
    (hsql : (handleQuery nl1 (llm nl1) dbq).body.sqlField = some s) :
    (processTwo nl1 nl2 llm dbq).1 = handleQuery nl1 (llm nl1) dbq ∧
    (processTwo nl1 nl2 llm dbq).2 = handleQuery nl2 (llm nl2) dbq ∧
    generateSQL (llm nl1) = some s ∧
    (handleQuery nl1 (llm nl1) dbq).body.sqlField =
      (handleQuery nl1 (llm nl1) dbq').body.sqlField := by
  refine ⟨rfl, rfl, ?_, ?_⟩
  · cases htr : truthy nl1
    · simp [handleQuery, htr, RespBody.sqlField] at hsql
    · rcases hgen : generateSQL (llm nl1) with _ | g
      · simp [handleQuery, htr, hgen, RespBody.sqlField] at hsql
      · by_cases hg : g = ""
        · subst hg
          simp [handleQuery, htr, hgen, RespBody.sqlField] at hsql
        · rcases hd : dbq g with e | rows <;>
            · simp [handleQuery, htr, hgen, hg, hd, RespBody.sqlField]
                at hsql
              subst hsql
              rfl
  · cases htr : truthy nl1
    · simp [handleQuery, htr]
    · rcases hgen : generateSQL (llm nl1) with _ | g
      · simp [handleQuery, htr, hgen]
      · by_cases hg : g = ""
        · subst hg
          simp [handleQuery, htr, hgen]
        · rcases hd : dbq g with e | rows <;>
            rcases hd' : dbq' g with e' | rows' <;>
            simp [handleQuery, htr, hgen, hg, hd, hd', RespBody.sqlField]

/-- C8 witness: a concrete pair of requests with different `nlQuery`
values; the first response's `sql` field is its own generated text,
independent of the database oracle. -/
theorem C8_witness :
    (handleQuery (ρ := Nat) (.jsStr "q1")
          ((fun nl => if nl = JSVal.jsStr "q1" then
              LLMOutcome.success (some "SELECT 1;")
            else LLMOutcome.success (some "SELECT 2;")) (.jsStr "q1"))
          (fun _ => .ok [])).body.sqlField = some "SELECT 1;" ∧
      ((processTwo (ρ := Nat) (.jsStr "q1") (.jsStr "q2")
            (fun nl => if nl = JSVal.jsStr "q1" then
                LLMOutcome.success (some "SELECT 1;")
              else LLMOutcome.success (some "SELECT 2;"))
            (fun _ => .ok [])).1 =
          handleQuery (.jsStr "q1")
            ((fun nl => if nl = JSVal.jsStr "q1" then
                LLMOutcome.success (some "SELECT 1;")
              else LLMOutcome.success (some "SELECT 2;")) (.jsStr "q1"))
            (fun _ => .ok []) ∧
        generateSQL ((fun nl => if nl = JSVal.jsStr "q1" then
            LLMOutcome.success (some "SELECT 1;")
          else LLMOutcome.success (some "SELECT 2;")) (.jsStr "q1")) =
          some "SELECT 1;") := by
  have h := C8_no_cross_contamination (ρ := Nat) (.jsStr "q1") (.jsStr "q2")
    (fun nl => if nl = JSVal.jsStr "q1" then
        LLMOutcome.success (some "SELECT 1;")
      else LLMOutcome.success (some "SELECT 2;"))
    (fun _ => .ok []) (fun _ => .ok []) "SELECT 1;" (by decide)
  exact ⟨by decide, h.1, h.2.2.1⟩

/-- C9: the missing-query check is JavaScript falsiness — a whitespace-only
`nlQuery` such as " " is not rejected (the handler proceeds to generation
and answers 200 or 500), while the falsy values `""`, `0`, `false` and
`null` are all rejected with the 400 response. -/
theorem C9_falsiness_check {ρ : Type} (llm : LLMOutcome)
    (dbq : String → Except String (List ρ)) :
    ((handleQuery (.jsStr " ") llm dbq).status = 200 ∨
      (handleQuery (.jsStr " ") llm dbq).status = 500) ∧
    (handleQuery (.jsStr " ") llm dbq).llmCalled = true ∧
    handleQuery (.jsStr "") llm dbq =
      ⟨400, .errBody "Missing natural query", false, none⟩ ∧
    handleQuery (.jsNum 0) llm dbq =
      ⟨400, .errBody "Missing natural query", false, none⟩ ∧
    handleQuery (.jsBool false) llm dbq =
      ⟨400, .errBody "Missing natural query", false, none⟩ ∧
    handleQuery .jsNull llm dbq =
      ⟨400, .errBody "Missing natural query", false, none⟩ := by
  have htru : truthy (.jsStr " ") = true := by decide
  refine ⟨?_, ?_, by simp [handleQuery, truthy], by simp [handleQuery, truthy],
    by simp [handleQuery, truthy], by simp [handleQuery, truthy]⟩
  · rcases hgen : generateSQL llm with _ | g
    · right; simp [handleQuery, htru, hgen]
    · by_cases hg : g = ""
      · subst hg
        right; simp [handleQuery, htru, hgen]
      · rcases hd : dbq g with e | rows
        · right; simp [handleQuery, htru, hgen, hg, hd]
        · left; simp [handleQuery, htru, hgen, hg, hd]
  · rcases hgen : generateSQL llm with _ | g
    · simp [handleQuery, htru, hgen]
    · by_cases hg : g = ""
      · subst hg
        simp [handleQuery, htru, hgen]
      · rcases hd : dbq g with e | rows <;>
          simp [handleQuery, htru, hgen, hg, hd]

example : rmFence [bt, bt, bt, 'a'] = ['a'] := by decide

example :
    generateSQL (.success (some "```sql SELECT 1; ```")) =
      some "SELECT 1;" := by decide

end DropInDataEngine
